import Mathlib

/-!
Shallow embedding of `scripts/tests/test-organization-flows.py` (the "Flow
Checker" of the specification).

The script drives a headless browser through ten test blocks, records a
pass/fail per `log_test` call into a mutable `results` dict, prints a
transcript, and exits 0/1 depending on the `failed` list.  We model the
external world (browser navigations, screenshots, API probes, page-error
events, filesystem probes) as an oracle `World`; the script itself is the
pure function `run : World → RunResult`.

Modelling notes, all visible in the definitions below:
* `page.goto(url)` is `World.nav url`, returning either an exception
  message or the page state observed after the navigation settles.
* `page.screenshot(path=..)` is `World.shot path` (fallible, no data).
* `page.request.get(url)` is `World.apiGet url` returning the status.
* the page-error events fired while visiting a page (listened to only in
  test 9) are `World.navErrors url`.
* `os.path.exists` is `World.pathExists`.
* browser launch / `new_context` / `new_page` happen before the script's
  `try:` block; their failure is modelled by the three `*Ok` flags.  When
  any is false the script aborts with an uncaught exception: nothing is
  printed by the script, `browser.close()` is never reached, and the
  interpreter exits with status 1.
* diagnostic listener output (`[Browser Console] ...`, `[Browser Error]
  ...`) is not part of the transcript model; `traceback.print_exc()` is
  represented by its header line.
* Python's `f"{rate:.1f}"` is modelled by rounding to the nearest tenth
  (`passRateTenths`); for every reachable `(passed, total)` pair (total ≤ 11)
  the value is never an exact half-tenth, so the rounding mode is exact.
-/

namespace FlowChecker

/-- DOM/page state observed by the script's locator counts and accessors
after a navigation: `page.title()`, `page.url`, the various
`page.locator(..).count()` values it consults, and `page.content()`. -/
structure Page where
  title : String
  url : String
  emailInputs : Nat
  passwordInputs : Nat
  submitTypeButtons : Nat
  signInTextButtons : Nat
  orgNameInputs : Nat
  orgPlaceholderInputs : Nat
  createTextButtons : Nat
  teamHeadings : Nat
  navCount : Nat
  asideCount : Nat
  roleNavCount : Nat
  mainCount : Nat
  roleMainCount : Nat
  content : String
deriving Repr, DecidableEq

/-- The external world the script interacts with, as an oracle. -/
structure World where
  launchOk : Bool
  newContextOk : Bool
  newPageOk : Bool
  nav : String → Except String Page
  shot : String → Except String Unit
  apiGet : String → Except String Nat
  navErrors : String → List String
  pathExists : String → Bool

/-- `needle` begins the character list `hay`. -/
def startsWithChars : List Char → List Char → Bool
  | [], _ => true
  | _ :: _, [] => false
  | a :: as, b :: bs => a == b && startsWithChars as bs

/-- `needle` occurs contiguously in the character list `hay`. -/
def containsChars (needle : List Char) : List Char → Bool
  | [] => startsWithChars needle []
  | c :: rest => startsWithChars needle (c :: rest) || containsChars needle rest

/-- Python's `needle in hay` for a non-empty needle. -/
def substr (needle hay : String) : Bool := containsChars needle.data hay.data

/-- Python's `str(bool)`. -/
def pyBool (b : Bool) : String := if b then "True" else "False"

/-- Python's `str.lower()` (ASCII case folding suffices for the strings
the script compares). -/
def lowerStr (s : String) : String := String.mk (s.data.map Char.toLower)

/-- The base origin hard-coded in the script. -/
def base : String := "http://localhost:3000"

/-- The mutable `results` dict of the script. -/
structure Results where
  passed : List String
  failed : List String
  total : Nat
deriving Repr, DecidableEq

def Results.empty : Results := ⟨[], [], 0⟩

/-- One printed line of the transcript.  A recorded check's `✅ PASS:` /
`❌ FAIL:` line is kept structured so the recorded sequence can be read
back without string parsing; `render` recovers the exact printed text. -/
inductive Line where
  | text : String → Line
  | check : String → Bool → Line
deriving Repr, DecidableEq

def Line.render : Line → String
  | .text s => s
  | .check n ok => (if ok then "✅ PASS: " else "❌ FAIL: ") ++ n

/-- `log_test(name, passed, details)`: bump `total`, append the name to
`passed` or `failed`, print the PASS/FAIL line and (when non-empty) the
details line. -/
def logTest (rs : Results) (name : String) (ok : Bool) (details : String) :
    Results × List Line :=
  (⟨if ok then rs.passed ++ [name] else rs.passed,
    if ok then rs.failed else rs.failed ++ [name],
    rs.total + 1⟩,
   [Line.check name ok] ++ if details = "" then [] else [Line.text ("   Details: " ++ details)])

/-- A unit of the `try:` block: either unconditional prints or a check
whose predicate evaluation may raise. -/
inductive Item where
  | say : List String → Item
  | chk : String → Except String (Bool × String) → Item

/-- Sequential execution of the `try:` block body: prints accumulate; a
check whose evaluation raises stops everything after it (the script has a
single `try`/`except` around all ten test blocks, no per-check handler).
The accumulated `Results` survive the exception. -/
def process : List Item → Results → List Line → Results × List Line × Option String
  | [], rs, ls => (rs, ls, none)
  | Item.say ss :: rest, rs, ls => process rest rs (ls ++ ss.map Line.text)
  | Item.chk name ev :: rest, rs, ls =>
      match ev with
      | Except.error e => (rs, ls, some e)
      | Except.ok (b, d) =>
          process rest (logTest rs name b d).1 (ls ++ (logTest rs name b d).2)

/-- Test 1: home page. -/
def eval1 (w : World) : Except String (Bool × String) :=
  match w.nav base with
  | .error e => .error e
  | .ok p =>
    match w.shot "/tmp/homepage.png" with
    | .error e => .error e
    | .ok _ =>
      .ok ((p.title != "") && !(substr "error" (lowerStr p.url)), "Title: " ++ p.title)

/-- Test 2: login page form elements. -/
def eval2 (w : World) : Except String (Bool × String) :=
  match w.nav (base ++ "/login") with
  | .error e => .error e
  | .ok p =>
    match w.shot "/tmp/login.png" with
    | .error e => .error e
    | .ok _ =>
      let hasEmail := decide (0 < p.emailInputs)
      let hasPassword := decide (0 < p.passwordInputs)
      let hasSubmit := decide (0 < p.submitTypeButtons) || decide (0 < p.signInTextButtons)
      .ok (hasEmail && hasPassword && hasSubmit,
           "Email: " ++ pyBool hasEmail ++ ", Password: " ++ pyBool hasPassword ++
           ", Submit: " ++ pyBool hasSubmit)

/-- Test 3: dashboard redirects unauthenticated users. -/
def eval3 (w : World) : Except String (Bool × String) :=
  match w.nav (base ++ "/dashboard") with
  | .error e => .error e
  | .ok p =>
    match w.shot "/tmp/dashboard-unauth.png" with
    | .error e => .error e
    | .ok _ =>
      .ok (substr "login" p.url || substr "auth" p.url || decide (0 < p.emailInputs),
           "Current URL: " ++ p.url)

/-- Test 4: onboarding page. -/
def eval4 (w : World) : Except String (Bool × String) :=
  match w.nav (base ++ "/onboarding") with
  | .error e => .error e
  | .ok p =>
    match w.shot "/tmp/onboarding.png" with
    | .error e => .error e
    | .ok _ =>
      let hasOrgInput := decide (0 < p.orgNameInputs) || decide (0 < p.orgPlaceholderInputs)
      let hasCreate := decide (0 < p.createTextButtons)
      .ok (hasOrgInput || hasCreate || substr "organization" (lowerStr p.content),
           "Has org input: " ++ pyBool hasOrgInput ++ ", Has create button: " ++ pyBool hasCreate)

/-- Test 5, first probe: `/api/auth/me`. -/
def eval5a (w : World) : Except String (Bool × String) :=
  match w.apiGet (base ++ "/api/auth/me") with
  | .error e => .error e
  | .ok s => .ok ((s == 200) || (s == 401), "Status: " ++ toString s)

/-- Test 5, second probe: `/api/organizations`. -/
def eval5b (w : World) : Except String (Bool × String) :=
  match w.apiGet (base ++ "/api/organizations") with
  | .error e => .error e
  | .ok s => .ok ((s == 200) || (s == 401), "Status: " ++ toString s)

/-- Test 6: team page. -/
def eval6 (w : World) : Except String (Bool × String) :=
  match w.nav (base ++ "/dashboard/team") with
  | .error e => .error e
  | .ok p =>
    match w.shot "/tmp/team-page.png" with
    | .error e => .error e
    | .ok _ =>
      .ok (decide (0 < p.teamHeadings) || substr "login" p.url || substr "onboarding" p.url,
           "Current URL: " ++ p.url)

/-- Test 7: dashboard structure. -/
def eval7 (w : World) : Except String (Bool × String) :=
  match w.nav (base ++ "/dashboard") with
  | .error e => .error e
  | .ok p =>
    match w.shot "/tmp/dashboard-full.png" with
    | .error e => .error e
    | .ok _ =>
      let hasNavigation := decide (0 < p.navCount) || decide (0 < p.asideCount) ||
        decide (0 < p.roleNavCount)
      let hasContent := decide (0 < p.mainCount) || decide (0 < p.roleMainCount)
      .ok (hasNavigation || hasContent || substr "login" p.url,
           "Has nav: " ++ pyBool hasNavigation ++ ", Has main: " ++ pyBool hasContent)

/-- The fixed list of privileged paths of test 8. -/
def protectedRoutes : List String :=
  ["/dashboard/analytics", "/dashboard/conversations", "/dashboard/settings"]

/-- The per-route predicate of test 8. -/
def routeProtected (p : Page) : Bool :=
  substr "login" p.url || substr "onboarding" p.url || decide (0 < p.emailInputs)

/-- The `for route in protected_routes` loop of test 8: navigates in
order, breaking (`all_protected = False; break`) at the first unprotected
route; a navigation error raises past the loop. -/
def sweepRoutes (w : World) : List String → Except String Bool
  | [] => .ok true
  | r :: rest =>
    match w.nav (base ++ r) with
    | .error e => .error e
    | .ok p => if routeProtected p then sweepRoutes w rest else .ok false

/-- Test 8: middleware route protection. -/
def eval8 (w : World) : Except String (Bool × String) :=
  match sweepRoutes w protectedRoutes with
  | .error e => .error e
  | .ok b => .ok (b, "Tested " ++ toString protectedRoutes.length ++ " routes")

/-- The fixed list of pages visited by test 9. -/
def testPages : List String := ["/", "/login", "/dashboard", "/onboarding"]

/-- The navigation loop of test 9 (errors raise past the loop). -/
def navAll (w : World) : List String → Except String Unit
  | [] => .ok ()
  | u :: rest =>
    match w.nav (base ++ u) with
    | .error e => .error e
    | .ok _ => navAll w rest

/-- The `js_errors` list collected by the `pageerror` listener installed
in test 9, over the four navigations of that test. -/
def jsErrors (w : World) : List String :=
  (testPages.map (fun u => w.navErrors (base ++ u))).flatten

/-- Test 9: JavaScript error detection. -/
def eval9 (w : World) : Except String (Bool × String) :=
  match navAll w testPages with
  | .error e => .error e
  | .ok _ =>
    .ok ((jsErrors w).length == 0, "Errors found: " ++ toString (jsErrors w).length)

/-- The `if js_errors:` report printed after test 9's `log_test`. -/
def say9 (w : World) : List String :=
  if (jsErrors w).isEmpty then []
  else ["", "   JavaScript Errors Detected:"] ++
    ((jsErrors w).take 5).map (fun e => "   - " ++ e)

/-- Test 10: build artifacts (never raises). -/
def eval10 (w : World) : Except String (Bool × String) :=
  let nextDirExists := w.pathExists "/Users/jamesguy/Omniops/.next"
  let buildComplete := nextDirExists && w.pathExists "/Users/jamesguy/Omniops/.next/BUILD_ID"
  .ok (buildComplete, ".next directory: " ++ pyBool nextDirExists)

/-- The separator the script prints as `"=" * 60`. -/
def eq60 : String := String.mk (List.replicate 60 (Char.ofNat 61))

/-- The `try:` block body, in source order. -/
def script (w : World) : List Item :=
  [Item.say ["", eq60, "🧪 Starting Organization Migration E2E Tests", eq60, ""],
   Item.say ["", "📍 Test 1: Home Page Access"],
   Item.chk "Home page loads successfully" (eval1 w),
   Item.say ["", "📍 Test 2: Login Page"],
   Item.chk "Login page has required form elements" (eval2 w),
   Item.say ["", "📍 Test 3: Dashboard Authentication"],
   Item.chk "Dashboard redirects unauthenticated users" (eval3 w),
   Item.say ["", "📍 Test 4: Onboarding Page"],
   Item.chk "Onboarding page exists with organization creation" (eval4 w),
   Item.say ["", "📍 Test 5: Critical API Endpoints"],
   Item.chk "API /auth/me endpoint responds" (eval5a w),
   Item.chk "API /organizations endpoint responds" (eval5b w),
   Item.say ["", "📍 Test 6: Team Management Page"],
   Item.chk "Team page exists in routing" (eval6 w),
   Item.say ["", "📍 Test 7: Dashboard UI Components"],
   Item.chk "Dashboard has proper structure" (eval7 w),
   Item.say ["", "📍 Test 8: Middleware Route Protection"],
   Item.chk "Middleware protects all dashboard routes" (eval8 w),
   Item.say ["", "📍 Test 9: JavaScript Error Detection"],
   Item.chk "No JavaScript errors on main pages" (eval9 w),
   Item.say (say9 w),
   Item.say ["", "📍 Test 10: Build Artifacts"],
   Item.chk "Production build artifacts exist" (eval10 w)]

/-- The check names in declaration order (11 records: test 5 logs two). -/
def declaredNames : List String :=
  ["Home page loads successfully",
   "Login page has required form elements",
   "Dashboard redirects unauthenticated users",
   "Onboarding page exists with organization creation",
   "API /auth/me endpoint responds",
   "API /organizations endpoint responds",
   "Team page exists in routing",
   "Dashboard has proper structure",
   "Middleware protects all dashboard routes",
   "No JavaScript errors on main pages",
   "Production build artifacts exist"]

/-- `pass_rate` in tenths of a percent, rounded to the nearest tenth
(exact for all values the script can produce); 0 when `total == 0`,
mirroring the division-by-zero guard. -/
def passRateTenths (p t : Nat) : Nat := if t = 0 then 0 else (p * 2000 + t) / (2 * t)

/-- The `f"{pass_rate:.1f}%"` string. -/
def rateStr (p t : Nat) : String :=
  toString (passRateTenths p t / 10) ++ "." ++ toString (passRateTenths p t % 10) ++ "%"

/-- The summary printed in the `finally:` block, after `browser.close()`. -/
def summaryLines (rs : Results) : List String :=
  ["", eq60, "📊 TEST SUMMARY", eq60,
   "Total Tests: " ++ toString rs.total,
   "✅ Passed: " ++ toString rs.passed.length,
   "❌ Failed: " ++ toString rs.failed.length]
  ++ (if rs.passed.isEmpty then [] else
        ["", "✅ Passed Tests:"] ++ rs.passed.map (fun t => "   - " ++ t))
  ++ (if rs.failed.isEmpty then [] else
        ["", "❌ Failed Tests:"] ++ rs.failed.map (fun t => "   - " ++ t))
  ++ ["", "📈 Pass Rate: " ++ rateStr rs.passed.length rs.total]
  ++ (if 0 < rs.failed.length then ["", "⚠️  Some tests failed. Review the results above."]
      else ["", "🎉 All tests passed!"])

/-- The `except Exception as e:` handler's output (error message plus the
stack trace, represented by its header line). -/
def errLines : Option String → List String
  | none => []
  | some e => ["", "❌ Test suite encountered an error: " ++ e,
               "Traceback (most recent call last):"]

/-- `sys.exit(1)` when `len(results['failed']) > 0`, else `sys.exit(0)`. -/
def exitCodeOf (rs : Results) : Nat := if 0 < rs.failed.length then 1 else 0

/-- Observable outcome of one invocation of `test_organization_flows()`. -/
structure RunResult where
  transcript : List Line
  results : Results
  browserClosed : Bool
  exitCode : Nat
deriving Repr, DecidableEq

/-- The `try:` body applied to the empty accumulator. -/
def runBody (w : World) : Results × List Line × Option String :=
  process (script w) Results.empty []

/-- The whole script.  Browser launch, `new_context` and `new_page`
precede the `try:`: if any of them fails the exception is uncaught, so the
script prints nothing, never calls `browser.close()`, and the interpreter
exits with status 1.  Otherwise the `finally:` always runs: close the
browser, print the summary, exit by the `failed` list. -/
def run (w : World) : RunResult :=
  if w.launchOk && w.newContextOk && w.newPageOk then
    let b := runBody w
    { transcript := b.2.1 ++ (errLines b.2.2).map Line.text ++ (summaryLines b.1).map Line.text
      results := b.1
      browserClosed := true
      exitCode := exitCodeOf b.1 }
  else
    { transcript := [], results := Results.empty, browserClosed := false, exitCode := 1 }

/-- The recorded checks, in transcript order. -/
def recordedOf (ls : List Line) : List (String × Bool) :=
  ls.filterMap fun l => match l with
    | .check n ok => some (n, ok)
    | .text _ => none

/-- The recorded check names, in transcript order. -/
def checkNames (ls : List Line) : List String := (recordedOf ls).map Prod.fst

/-- The names of the check items of a `try:`-body fragment. -/
def itemChecks : List Item → List String
  | [] => []
  | Item.say _ :: rest => itemChecks rest
  | Item.chk n _ :: rest => n :: itemChecks rest

/-! Concrete worlds used for counterexamples and witnesses. -/

/-- A page on which every predicate of the script succeeds: the URL looks
like a login redirect, all form elements are present. -/
def pAll : Page :=
  { title := "Omniops"
    url := "http://localhost:3000/login"
    emailInputs := 1
    passwordInputs := 1
    submitTypeButtons := 1
    signInTextButtons := 0
    orgNameInputs := 1
    orgPlaceholderInputs := 0
    createTextButtons := 1
    teamHeadings := 1
    navCount := 1
    asideCount := 0
    roleNavCount := 0
    mainCount := 1
    roleMainCount := 0
    content := "organization" }

/-- A page that does NOT satisfy `routeProtected`: the privileged URL was
served as-is, with no login form. -/
def pOpen : Page :=
  { title := "Conversations"
    url := "http://localhost:3000/dashboard/conversations"
    emailInputs := 0
    passwordInputs := 0
    submitTypeButtons := 0
    signInTextButtons := 0
    orgNameInputs := 0
    orgPlaceholderInputs := 0
    createTextButtons := 0
    teamHeadings := 0
    navCount := 1
    asideCount := 0
    roleNavCount := 0
    mainCount := 1
    roleMainCount := 0
    content := "chat" }

/-- A world on which every check passes. -/
def wAll : World :=
  { launchOk := true
    newContextOk := true
    newPageOk := true
    nav := fun _ => .ok pAll
    shot := fun _ => .ok ()
    apiGet := fun _ => .ok 401
    navErrors := fun _ => []
    pathExists := fun _ => true }

/-- `wAll`, except that every API probe raises: the first probe of test 5
raises "boom" past the (non-existent) check boundary. -/
def wApiBoom : World :=
  { wAll with apiGet := fun _ => .error "boom" }

/-- `wAll`, except that the browser cannot launch. -/
def wNoLaunch : World := { wAll with launchOk := false }

/-- `wAll`, except that every navigation raises: the very first check's
`page.goto` fails, so zero checks are recorded. -/
def wNavDead : World := { wAll with nav := fun _ => .error "net::ERR_CONNECTION_REFUSED" }

/-- `wAll`, except that the second privileged route of test 8 is served
without protection. -/
def wOpenRoute : World :=
  { wAll with nav := fun u =>
      if u = "http://localhost:3000/dashboard/conversations" then .ok pOpen else .ok pAll }

/-- `wAll`, except that the FIRST privileged route of test 8 is served
without protection (used to exhibit the short-circuit). -/
def wOpenFirst : World :=
  { wAll with nav := fun u =>
      if u = "http://localhost:3000/dashboard/analytics" then .ok pOpen else .ok pAll }

/-- Whether the Session was fully acquired (browser launched, context and
page created), i.e. whether the `try:` block is entered at all. -/
def acquired (w : World) : Prop :=
  w.launchOk = true ∧ w.newContextOk = true ∧ w.newPageOk = true

/-- Every URL the script ever navigates to. -/
def navUrls : List String :=
  [base, base ++ "/", base ++ "/login", base ++ "/dashboard", base ++ "/onboarding",
   base ++ "/dashboard/team", base ++ "/dashboard/analytics",
   base ++ "/dashboard/conversations", base ++ "/dashboard/settings"]

/-- Every screenshot path the script writes. -/
def shotPaths : List String :=
  ["/tmp/homepage.png", "/tmp/login.png", "/tmp/dashboard-unauth.png", "/tmp/onboarding.png",
   "/tmp/team-page.png", "/tmp/dashboard-full.png"]

/-- Every API URL the script probes. -/
def apiUrls : List String := [base ++ "/api/auth/me", base ++ "/api/organizations"]

/-- Every URL whose page-error events test 9 listens to. -/
def errorPages : List String :=
  [base ++ "/", base ++ "/login", base ++ "/dashboard", base ++ "/onboarding"]

/-- Every filesystem path test 10 probes. -/
def buildPaths : List String :=
  ["/Users/jamesguy/Omniops/.next", "/Users/jamesguy/Omniops/.next/BUILD_ID"]

/-- `wAll` with page-error junk attached to a URL the script never visits
(used to witness that unconsulted oracle entries cannot change outcomes). -/
def wAllJunk : World :=
  { wAll with navErrors := fun u => if u = "http://example.org/unvisited" then ["late"] else [] }

/-! General lemmas about the embedding. -/

theorem recordedOf_append (a b : List Line) :
    recordedOf (a ++ b) = recordedOf a ++ recordedOf b := by
  simp [recordedOf]

theorem recordedOf_textMap (ss : List String) : recordedOf (ss.map Line.text) = [] := by
  induction ss with
  | nil => rfl
  | cons s t ih => simp [recordedOf, ih]

theorem recordedOf_logTest (rs : Results) (n : String) (b : Bool) (d : String) :
    recordedOf (logTest rs n b d).2 = [(n, b)] := by
  by_cases h : d = "" <;> simp [logTest, recordedOf, h]

theorem logTest_total (rs : Results) (n : String) (b : Bool) (d : String) :
    (logTest rs n b d).1.total = rs.total + 1 := rfl

theorem logTest_inv (rs : Results) (n : String) (b : Bool) (d : String)
    (h : rs.total = rs.passed.length + rs.failed.length) :
    (logTest rs n b d).1.total =
      (logTest rs n b d).1.passed.length + (logTest rs n b d).1.failed.length := by
  cases b <;> simp [logTest, h] <;> omega

/-- Master lemma about sequential execution of the `try:` body: there is a
list `ns` of newly recorded checks such that the output lines extend the
input lines by exactly those records, the recorded names are an initial
segment of the declared check names, execution without an exception records
all of them, an exception leaves at least the raising check unrecorded, and
`total` counts exactly the records. -/
theorem process_spec (items : List Item) : ∀ (rs : Results) (ls : List Line),
    ∃ ns : List (String × Bool),
      recordedOf (process items rs ls).2.1 = recordedOf ls ++ ns
      ∧ ns.map Prod.fst = (itemChecks items).take ns.length
      ∧ ns.length ≤ (itemChecks items).length
      ∧ ((process items rs ls).2.2 = none → ns.map Prod.fst = itemChecks items)
      ∧ (∀ e, (process items rs ls).2.2 = some e → ns.length < (itemChecks items).length)
      ∧ (process items rs ls).1.total = rs.total + ns.length := by
  induction items with
  | nil =>
    intro rs ls
    exact ⟨[], by simp [process], by simp, by simp [itemChecks],
           by simp [itemChecks], by simp [process], by simp [process]⟩
  | cons it rest ih =>
    intro rs ls
    cases it with
    | say ss =>
      obtain ⟨ns, h1, h2, h3, h4, h5, h6⟩ := ih rs (ls ++ ss.map Line.text)
      refine ⟨ns, ?_, ?_, ?_, ?_, ?_, ?_⟩
      · simp only [process]
        rw [h1, recordedOf_append, recordedOf_textMap]
        simp
      · simpa [itemChecks] using h2
      · simpa [itemChecks] using h3
      · simpa [itemChecks, process] using h4
      · simpa [itemChecks, process] using h5
      · simpa [process] using h6
    | chk name ev =>
      cases ev with
      | error e =>
        refine ⟨[], by simp [process], by simp, by simp [itemChecks], ?_, ?_, by simp [process]⟩
        · intro h
          simp [process] at h
        · intro e h
          simp [itemChecks]
      | ok bd =>
        obtain ⟨b, d⟩ := bd
        obtain ⟨ns, h1, h2, h3, h4, h5, h6⟩ :=
          ih (logTest rs name b d).1 (ls ++ (logTest rs name b d).2)
        refine ⟨(name, b) :: ns, ?_, ?_, ?_, ?_, ?_, ?_⟩
        · simp only [process]
          rw [h1, recordedOf_append, recordedOf_logTest]
          simp
        · simpa [itemChecks] using h2
        · simp only [itemChecks, List.length_cons]
          omega
        · intro h
          simp only [process] at h
          simp [itemChecks, h4 h]
        · intro e h
          simp only [process] at h
          have := h5 e h
          simp only [itemChecks, List.length_cons]
          omega
        · simp only [process]
          rw [h6, logTest_total]
          simp only [List.length_cons]
          omega

/-- The `total == len(passed) + len(failed)` invariant is preserved by the
`try:` body. -/
theorem process_inv (items : List Item) : ∀ (rs : Results) (ls : List Line),
    rs.total = rs.passed.length + rs.failed.length →
    (process items rs ls).1.total =
      (process items rs ls).1.passed.length + (process items rs ls).1.failed.length := by
  induction items with
  | nil => intro rs ls h; simpa [process] using h
  | cons it rest ih =>
    intro rs ls h
    cases it with
    | say ss => simpa [process] using ih rs (ls ++ ss.map Line.text) h
    | chk name ev =>
      cases ev with
      | error e => simpa [process] using h
      | ok bd =>
        obtain ⟨b, d⟩ := bd
        simpa [process] using
          ih (logTest rs name b d).1 (ls ++ (logTest rs name b d).2) (logTest_inv rs name b d h)

theorem itemChecks_script (w : World) : itemChecks (script w) = declaredNames := rfl

theorem declaredNames_length : declaredNames.length = 11 := rfl

/-- `process_spec` specialised to the whole run body. -/
theorem runBody_spec (w : World) :
    ∃ ns : List (String × Bool),
      recordedOf (runBody w).2.1 = ns
      ∧ ns.map Prod.fst = declaredNames.take ns.length
      ∧ ns.length ≤ 11
      ∧ ((runBody w).2.2 = none → ns.map Prod.fst = declaredNames)
      ∧ (∀ e, (runBody w).2.2 = some e → ns.length < 11)
      ∧ (runBody w).1.total = ns.length := by
  obtain ⟨ns, h1, h2, h3, h4, h5, h6⟩ := process_spec (script w) Results.empty []
  rw [itemChecks_script] at h2 h3 h4 h5
  rw [declaredNames_length] at h3 h5
  refine ⟨ns, ?_, h2, h3, h4, h5, ?_⟩
  · simpa [recordedOf] using h1
  · simpa [Results.empty] using h6

theorem runBody_inv (w : World) :
    (runBody w).1.total = (runBody w).1.passed.length + (runBody w).1.failed.length :=
  process_inv (script w) Results.empty [] (by simp [Results.empty])

theorem run_transcript (w : World) (h : acquired w) :
    (run w).transcript =
      (runBody w).2.1 ++ (errLines (runBody w).2.2).map Line.text ++
        (summaryLines (runBody w).1).map Line.text := by
  obtain ⟨h1, h2, h3⟩ := h
  simp [run, h1, h2, h3]

theorem run_results (w : World) (h : acquired w) : (run w).results = (runBody w).1 := by
  obtain ⟨h1, h2, h3⟩ := h
  simp [run, h1, h2, h3]

theorem run_exit (w : World) (h : acquired w) :
    (run w).exitCode = exitCodeOf (runBody w).1 := by
  obtain ⟨h1, h2, h3⟩ := h
  simp [run, h1, h2, h3]

theorem run_closed (w : World) (h : acquired w) : (run w).browserClosed = true := by
  obtain ⟨h1, h2, h3⟩ := h
  simp [run, h1, h2, h3]

theorem checkNames_run (w : World) (h : acquired w) :
    checkNames (run w).transcript = checkNames (runBody w).2.1 := by
  rw [checkNames, run_transcript w h, recordedOf_append, recordedOf_append,
      recordedOf_textMap, recordedOf_textMap, checkNames]
  simp

theorem runBody_total_of_none (w : World) (h : (runBody w).2.2 = none) :
    (runBody w).1.total = 11 := by
  obtain ⟨ns, _, _, _, h4, _, h6⟩ := runBody_spec w
  have hlen : ns.length = 11 := by
    have := congrArg List.length (h4 h)
    simpa using this
  rw [h6, hlen]

theorem runBody_total_of_some (w : World) (e : String) (h : (runBody w).2.2 = some e) :
    (runBody w).1.total < 11 := by
  obtain ⟨ns, _, _, _, _, h5, h6⟩ := runBody_spec w
  rw [h6]
  exact h5 e h

theorem mem_summary_header (rs : Results) : "📊 TEST SUMMARY" ∈ summaryLines rs := by
  simp [summaryLines]

theorem mem_summary_total (rs : Results) :
    ("Total Tests: " ++ toString rs.total) ∈ summaryLines rs := by
  simp [summaryLines]

theorem mem_summary_passed (rs : Results) :
    ("✅ Passed: " ++ toString rs.passed.length) ∈ summaryLines rs := by
  simp [summaryLines]

theorem mem_summary_failed (rs : Results) :
    ("❌ Failed: " ++ toString rs.failed.length) ∈ summaryLines rs := by
  simp [summaryLines]

theorem mem_summary_rate (rs : Results) :
    ("📈 Pass Rate: " ++ rateStr rs.passed.length rs.total) ∈ summaryLines rs := by
  simp [summaryLines]

theorem mem_transcript_of_summary (w : World) (h : acquired w) (s : String)
    (hs : s ∈ summaryLines (runBody w).1) : Line.text s ∈ (run w).transcript := by
  rw [run_transcript w h]
  exact List.mem_append_right _ (List.mem_map_of_mem Line.text hs)

theorem mem_transcript_of_err (w : World) (h : acquired w) (s : String)
    (hs : s ∈ errLines (runBody w).2.2) : Line.text s ∈ (run w).transcript := by
  rw [run_transcript w h]
  exact List.mem_append_left _ (List.mem_append_right _ (List.mem_map_of_mem Line.text hs))

/-- The exit status is decided solely by the `failed` list whenever the
`finally:` block is reached. -/
theorem run_exit_iff (w : World) (h : acquired w) :
    ((run w).exitCode = 0 ↔ (run w).results.failed = [])
    ∧ ((run w).results.failed ≠ [] → (run w).exitCode = 1) := by
  rw [run_exit w h, run_results w h]
  cases hf : (runBody w).1.failed <;> simp [exitCodeOf, hf]

/-- The test-8 loop under a pointwise description of the pages served for
the privileged routes: it returns the conjunction of the per-route
predicate over the whole list. -/
theorem sweepRoutes_ok (w : World) (f : String → Page) :
    ∀ routes : List String, (∀ r ∈ routes, w.nav (base ++ r) = Except.ok (f r)) →
      sweepRoutes w routes = Except.ok (routes.all fun r => routeProtected (f r)) := by
  intro routes
  induction routes with
  | nil => intro _; simp [sweepRoutes]
  | cons r rest ih =>
    intro h
    have hr := h r (List.mem_cons_self r rest)
    have htl := ih fun x hx => h x (List.mem_cons_of_mem r hx)
    cases hb : routeProtected (f r) <;> simp [sweepRoutes, hr, hb, htl]

/-- The test-8 loop short-circuits: if the first route is served
unprotected, the result is failure regardless of the remaining routes
(no assumption is made about them). -/
theorem sweepRoutes_shortCircuit (w : World) (p : Page)
    (hnav : w.nav (base ++ "/dashboard/analytics") = Except.ok p)
    (hp : routeProtected p = false) :
    sweepRoutes w protectedRoutes = Except.ok false := by
  simp [protectedRoutes, sweepRoutes, hnav, hp]

theorem eval8_detail : ("Tested " ++ toString protectedRoutes.length ++ " routes") =
    "Tested 3 routes" := by decide

/-! Congruence lemmas: each predicate evaluation depends on the world only
through the oracle entries the script actually consults. -/

theorem eval1_congr (w1 w2 : World) (hn : w1.nav base = w2.nav base)
    (hs : w1.shot "/tmp/homepage.png" = w2.shot "/tmp/homepage.png") :
    eval1 w1 = eval1 w2 := by
  simp only [eval1, hn, hs]

theorem eval2_congr (w1 w2 : World) (hn : w1.nav (base ++ "/login") = w2.nav (base ++ "/login"))
    (hs : w1.shot "/tmp/login.png" = w2.shot "/tmp/login.png") :
    eval2 w1 = eval2 w2 := by
  simp only [eval2, hn, hs]

theorem eval3_congr (w1 w2 : World)
    (hn : w1.nav (base ++ "/dashboard") = w2.nav (base ++ "/dashboard"))
    (hs : w1.shot "/tmp/dashboard-unauth.png" = w2.shot "/tmp/dashboard-unauth.png") :
    eval3 w1 = eval3 w2 := by
  simp only [eval3, hn, hs]

theorem eval4_congr (w1 w2 : World)
    (hn : w1.nav (base ++ "/onboarding") = w2.nav (base ++ "/onboarding"))
    (hs : w1.shot "/tmp/onboarding.png" = w2.shot "/tmp/onboarding.png") :
    eval4 w1 = eval4 w2 := by
  simp only [eval4, hn, hs]

theorem eval5a_congr (w1 w2 : World)
    (ha : w1.apiGet (base ++ "/api/auth/me") = w2.apiGet (base ++ "/api/auth/me")) :
    eval5a w1 = eval5a w2 := by
  simp only [eval5a, ha]

theorem eval5b_congr (w1 w2 : World)
    (ha : w1.apiGet (base ++ "/api/organizations") = w2.apiGet (base ++ "/api/organizations")) :
    eval5b w1 = eval5b w2 := by
  simp only [eval5b, ha]

theorem eval6_congr (w1 w2 : World)
    (hn : w1.nav (base ++ "/dashboard/team") = w2.nav (base ++ "/dashboard/team"))
    (hs : w1.shot "/tmp/team-page.png" = w2.shot "/tmp/team-page.png") :
    eval6 w1 = eval6 w2 := by
  simp only [eval6, hn, hs]

theorem eval7_congr (w1 w2 : World)
    (hn : w1.nav (base ++ "/dashboard") = w2.nav (base ++ "/dashboard"))
    (hs : w1.shot "/tmp/dashboard-full.png" = w2.shot "/tmp/dashboard-full.png") :
    eval7 w1 = eval7 w2 := by
  simp only [eval7, hn, hs]

theorem eval8_congr (w1 w2 : World)
    (h1 : w1.nav (base ++ "/dashboard/analytics") = w2.nav (base ++ "/dashboard/analytics"))
    (h2 : w1.nav (base ++ "/dashboard/conversations") = w2.nav (base ++ "/dashboard/conversations"))
    (h3 : w1.nav (base ++ "/dashboard/settings") = w2.nav (base ++ "/dashboard/settings")) :
    eval8 w1 = eval8 w2 := by
  simp only [eval8, protectedRoutes, sweepRoutes, h1, h2, h3]

theorem jsErrors_congr (w1 w2 : World)
    (e1 : w1.navErrors (base ++ "/") = w2.navErrors (base ++ "/"))
    (e2 : w1.navErrors (base ++ "/login") = w2.navErrors (base ++ "/login"))
    (e3 : w1.navErrors (base ++ "/dashboard") = w2.navErrors (base ++ "/dashboard"))
    (e4 : w1.navErrors (base ++ "/onboarding") = w2.navErrors (base ++ "/onboarding")) :
    jsErrors w1 = jsErrors w2 := by
  simp only [jsErrors, testPages, List.map_cons, List.map_nil, e1, e2, e3, e4]

theorem eval9_congr (w1 w2 : World)
    (n1 : w1.nav (base ++ "/") = w2.nav (base ++ "/"))
    (n2 : w1.nav (base ++ "/login") = w2.nav (base ++ "/login"))
    (n3 : w1.nav (base ++ "/dashboard") = w2.nav (base ++ "/dashboard"))
    (n4 : w1.nav (base ++ "/onboarding") = w2.nav (base ++ "/onboarding"))
    (hj : jsErrors w1 = jsErrors w2) :
    eval9 w1 = eval9 w2 := by
  simp only [eval9, navAll, testPages, n1, n2, n3, n4, hj]

theorem say9_congr (w1 w2 : World) (hj : jsErrors w1 = jsErrors w2) : say9 w1 = say9 w2 := by
  simp only [say9, hj]

theorem eval10_congr (w1 w2 : World)
    (b1 : w1.pathExists "/Users/jamesguy/Omniops/.next" =
          w2.pathExists "/Users/jamesguy/Omniops/.next")
    (b2 : w1.pathExists "/Users/jamesguy/Omniops/.next/BUILD_ID" =
          w2.pathExists "/Users/jamesguy/Omniops/.next/BUILD_ID") :
    eval10 w1 = eval10 w2 := by
  simp only [eval10, b1, b2]

/-! The claims. -/

/-- C1 counterexample: in the world `wApiBoom` the predicate of the Check
"API /auth/me endpoint responds" raises "boom".  Contrary to the claim,
the error is not caught at that Check Step's boundary: the raising check is
never recorded (only the first 4 checks are, and the `failed` list stays
empty), and the subsequent Check "API /organizations endpoint responds"
does not execute. -/
theorem C1_counterexample :
    (runBody wApiBoom).2.2 = some "boom"
    ∧ (run wApiBoom).results.total = 4
    ∧ (run wApiBoom).results.failed = []
    ∧ checkNames (run wApiBoom).transcript = declaredNames.take 4 := by
  refine ⟨by decide, by decide, by decide, by decide⟩

/-- C1 (amended): an error raised while evaluating a Check Step's
predicate is NOT caught at the Check's boundary; it propagates to the
single run-level handler, so the raising Check and all later Checks go
unrecorded (strictly fewer than 11 records), the handler prints the error
message, and the summary and the browser close still execute. -/
theorem C1_amended_thm (w : World) (e : String) (h : acquired w)
    (he : (runBody w).2.2 = some e) :
    Line.text ("❌ Test suite encountered an error: " ++ e) ∈ (run w).transcript
    ∧ (run w).results.total < 11
    ∧ (run w).browserClosed = true
    ∧ Line.text "📊 TEST SUMMARY" ∈ (run w).transcript := by
  refine ⟨?_, ?_, run_closed w h, ?_⟩
  · apply mem_transcript_of_err w h
    rw [he]
    simp [errLines]
  · rw [run_results w h]
    exact runBody_total_of_some w e he
  · exact mem_transcript_of_summary w h _ (mem_summary_header _)

/-- C1 witness: the amended statement at the concrete raising world. -/
theorem C1_witness :
    Line.text ("❌ Test suite encountered an error: " ++ "boom") ∈ (run wApiBoom).transcript
    ∧ (run wApiBoom).results.total < 11
    ∧ (run wApiBoom).browserClosed = true
    ∧ Line.text "📊 TEST SUMMARY" ∈ (run wApiBoom).transcript :=
  C1_amended_thm wApiBoom "boom" ⟨rfl, rfl, rfl⟩ (by decide)

/-- C2: whenever the run reaches the summary (the Session was acquired, so
the `finally:` block runs), the exit status is 0 iff the `failed` list of
the Result Set is empty, and 1 otherwise. -/
theorem C2_thm (w : World) (h : acquired w) :
    ((run w).exitCode = 0 ↔ (run w).results.failed = [])
    ∧ ((run w).results.failed ≠ [] → (run w).exitCode = 1) :=
  run_exit_iff w h

/-- C2 witness at the all-passing world. -/
theorem C2_witness :
    ((run wAll).exitCode = 0 ↔ (run wAll).results.failed = [])
    ∧ ((run wAll).results.failed ≠ [] → (run wAll).exitCode = 1) :=
  C2_thm wAll ⟨rfl, rfl, rfl⟩

/-- C3: `total == len(passed) + len(failed)` holds after every recorded
Check (i.e. after every prefix of the `try:` body) and at final report
time, for every run. -/
theorem C3_thm (w : World) (n : Nat) :
    (process ((script w).take n) Results.empty []).1.total =
      (process ((script w).take n) Results.empty []).1.passed.length +
        (process ((script w).take n) Results.empty []).1.failed.length
    ∧ (run w).results.total =
        (run w).results.passed.length + (run w).results.failed.length := by
  constructor
  · exact process_inv _ _ _ (by simp [Results.empty])
  · by_cases hq : (w.launchOk && w.newContextOk && w.newPageOk) = true
    · simp only [Bool.and_eq_true] at hq
      rw [run_results w ⟨hq.1.1, hq.1.2, hq.2⟩]
      exact runBody_inv w
    · simp [run, hq, Results.empty]

/-- C4 counterexample: when the browser cannot launch (`launchOk = false`)
the exception is raised before the `try:` block, so contrary to the claim
the run prints no summary at all and never reaches `browser.close()`;
the interpreter exits 1 only because the exception is uncaught. -/
theorem C4_counterexample :
    wNoLaunch.launchOk = false
    ∧ (run wNoLaunch).transcript = []
    ∧ Line.text "📊 TEST SUMMARY" ∉ (run wNoLaunch).transcript
    ∧ (run wNoLaunch).browserClosed = false
    ∧ (run wNoLaunch).exitCode = 1 := by
  refine ⟨rfl, by decide, by decide, by decide, by decide⟩

/-- C4 (amended): a failure inside the check-execution block (after the
Session was fully acquired) is reported with its message and a stack
trace, the summary of the partial Result Set is still printed (with pass
rate 0.0% when `total == 0`), and the browser is closed; but the exit
status is determined solely by the accumulated `failed` list (0 when it is
empty, 1 otherwise), so such a run can exit 0.  Session acquisition
failure itself aborts the run with the uncaught exception: nonzero
interpreter exit status, but no summary and no resource-release path. -/
theorem C4_amended_thm :
    (∀ (w : World) (e : String), acquired w → (runBody w).2.2 = some e →
      Line.text ("❌ Test suite encountered an error: " ++ e) ∈ (run w).transcript
      ∧ Line.text "Traceback (most recent call last):" ∈ (run w).transcript
      ∧ Line.text "📊 TEST SUMMARY" ∈ (run w).transcript
      ∧ (run w).browserClosed = true
      ∧ ((run w).results.total = 0 → Line.text "📈 Pass Rate: 0.0%" ∈ (run w).transcript)
      ∧ ((run w).exitCode = 0 ↔ (run w).results.failed = []))
    ∧ ∀ w : World, w.launchOk = false →
        (run w).transcript = [] ∧ (run w).browserClosed = false ∧ (run w).exitCode = 1 := by
  constructor
  · intro w e h he
    refine ⟨?_, ?_, mem_transcript_of_summary w h _ (mem_summary_header _),
            run_closed w h, ?_, (run_exit_iff w h).1⟩
    · apply mem_transcript_of_err w h
      rw [he]
      simp [errLines]
    · apply mem_transcript_of_err w h
      rw [he]
      simp [errLines]
    · intro ht0
      rw [run_results w h] at ht0
      have hinv := runBody_inv w
      have hp : (runBody w).1.passed.length = 0 := by omega
      have hm := mem_summary_rate (runBody w).1
      rw [hp, ht0] at hm
      rw [show ("📈 Pass Rate: " ++ rateStr 0 0) = "📈 Pass Rate: 0.0%" from by decide] at hm
      exact mem_transcript_of_summary w h _ hm
  · intro w hw
    have hq : (w.launchOk && w.newContextOk && w.newPageOk) = false := by simp [hw]
    simp [run, hq]

/-- C4 witness: `wNavDead` (every navigation raises, so the very first
check aborts with zero checks recorded) exercises the in-`try:` half,
including the 0.0% pass-rate guard and, notably, exit status 0 because
`failed` is empty; `wNoLaunch` exercises the acquisition-failure half. -/
theorem C4_witness :
    Line.text "📈 Pass Rate: 0.0%" ∈ (run wNavDead).transcript
    ∧ (run wNavDead).exitCode = 0
    ∧ (run wNoLaunch).transcript = [] := by
  have h := C4_amended_thm
  have hL := h.1 wNavDead "net::ERR_CONNECTION_REFUSED" ⟨rfl, rfl, rfl⟩ (by decide)
  exact ⟨hL.2.2.2.2.1 (by decide), hL.2.2.2.2.2.mpr (by decide), (h.2 wNoLaunch rfl).1⟩

/-- C5 counterexample: in the world `wAll` every check passes and no
exception occurs, yet the transcript shows "✅ Passed: 11" — no line of
the transcript contains "Passed: 10", because test 5 records two Checks,
contrary to the claim's "Passed: 10". -/
theorem C5_counterexample :
    (runBody wAll).2.2 = none
    ∧ (run wAll).results.failed = []
    ∧ (run wAll).results.total = 11
    ∧ Line.text "✅ Passed: 11" ∈ (run wAll).transcript
    ∧ ((run wAll).transcript.map Line.render).all (fun s => !(substr "Passed: 10" s)) = true := by
  refine ⟨by decide, by decide, by decide, by decide, by decide⟩

/-- C5 (amended): for every run in which all Check Steps complete without
an exception and every recorded Check passes, the transcript shows
"Passed: 11" (test 5 records two Checks), "Failed: 0", a pass rate of
"100.0%", and the process exits with code 0. -/
theorem C5_amended_thm (w : World) (h : acquired w) (hn : (runBody w).2.2 = none)
    (hf : (run w).results.failed = []) :
    Line.text "✅ Passed: 11" ∈ (run w).transcript
    ∧ Line.text "❌ Failed: 0" ∈ (run w).transcript
    ∧ Line.text "📈 Pass Rate: 100.0%" ∈ (run w).transcript
    ∧ (run w).exitCode = 0 := by
  rw [run_results w h] at hf
  have ht : (runBody w).1.total = 11 := runBody_total_of_none w hn
  have hinv := runBody_inv w
  have hp : (runBody w).1.passed.length = 11 := by
    rw [hf] at hinv
    simp at hinv
    omega
  refine ⟨?_, ?_, ?_, ?_⟩
  · have hm := mem_summary_passed (runBody w).1
    rw [hp] at hm
    rw [show ("✅ Passed: " ++ toString (11 : Nat)) = "✅ Passed: 11" from by decide] at hm
    exact mem_transcript_of_summary w h _ hm
  · have hm := mem_summary_failed (runBody w).1
    rw [hf] at hm
    rw [show ("❌ Failed: " ++ toString ([] : List String).length) = "❌ Failed: 0"
          from by decide] at hm
    exact mem_transcript_of_summary w h _ hm
  · have hm := mem_summary_rate (runBody w).1
    rw [hp, ht] at hm
    rw [show ("📈 Pass Rate: " ++ rateStr 11 11) = "📈 Pass Rate: 100.0%" from by decide] at hm
    exact mem_transcript_of_summary w h _ hm
  · rw [run_exit w h]
    simp [exitCodeOf, hf]

/-- C5 witness: the amended statement at the all-passing world. -/
theorem C5_witness :
    Line.text "✅ Passed: 11" ∈ (run wAll).transcript
    ∧ Line.text "❌ Failed: 0" ∈ (run wAll).transcript
    ∧ Line.text "📈 Pass Rate: 100.0%" ∈ (run wAll).transcript
    ∧ (run wAll).exitCode = 0 :=
  C5_amended_thm wAll ⟨rfl, rfl, rfl⟩ (by decide) (by decide)

/-- C6: the bulk protected-route sweep (Check 8).  (1) Under a pointwise
description of the pages served for the three privileged routes, it passes
iff every one of them redirects to login/onboarding or shows a login form.
(2) It short-circuits: an unprotected first route yields failure with no
assumption about the remaining routes.  (3) Concrete scenario: one
unprotected route among the three is recorded as a failed Check with
detail "Tested 3 routes", exit code is 1, and Checks 9 and 10 (the last
two declared names) still execute afterward. -/
theorem C6_thm :
    (∀ (w : World) (f : String → Page),
        (∀ r ∈ protectedRoutes, w.nav (base ++ r) = Except.ok (f r)) →
        eval8 w = Except.ok (protectedRoutes.all fun r => routeProtected (f r),
                             "Tested 3 routes"))
    ∧ (∀ (w : World) (p : Page), w.nav (base ++ "/dashboard/analytics") = Except.ok p →
        routeProtected p = false → eval8 w = Except.ok (false, "Tested 3 routes"))
    ∧ checkNames (run wOpenRoute).transcript = declaredNames
    ∧ ("Middleware protects all dashboard routes", false) ∈ recordedOf (run wOpenRoute).transcript
    ∧ Line.text "   Details: Tested 3 routes" ∈ (run wOpenRoute).transcript
    ∧ (run wOpenRoute).exitCode = 1 := by
  refine ⟨?_, ?_, by decide, by decide, by decide, by decide⟩
  · intro w f hf
    have hs := sweepRoutes_ok w f protectedRoutes hf
    simp [eval8, hs, eval8_detail]
  · intro w p hnav hp
    have hs := sweepRoutes_shortCircuit w p hnav hp
    simp [eval8, hs, eval8_detail]

/-- C6 witness: the sweep passes on the all-protected world, and
short-circuits to failure when the first route is unprotected. -/
theorem C6_witness :
    eval8 wAll = Except.ok (true, "Tested 3 routes")
    ∧ eval8 wOpenFirst = Except.ok (false, "Tested 3 routes") := by
  constructor
  · have h := C6_thm.1 wAll (fun _ => pAll) (fun r hr => rfl)
    rw [show (protectedRoutes.all fun r => routeProtected ((fun _ => pAll) r)) = true
          from by decide] at h
    exact h
  · exact C6_thm.2.1 wOpenFirst pOpen rfl (by decide)

/-- C7: once the Session is fully acquired (browser, context and page all
created, so the `try:` block is entered), the browser is closed on every
exit path of the run — the close sits in the `finally:` block — regardless
of whether any check raised an error or failed. -/
theorem C7_thm (w : World) (h : acquired w) : (run w).browserClosed = true :=
  run_closed w h

/-- C7 witness at the all-passing world. -/
theorem C7_witness : (run wAll).browserClosed = true :=
  C7_thm wAll ⟨rfl, rfl, rfl⟩

/-- C8: the recorded Check names in the transcript always form an initial
segment of the declared order, for every world (in particular when earlier
Checks record failures), and equal the full declared order whenever no
exception aborts the body. -/
theorem C8_thm (w : World) (h : acquired w) :
    (∃ k, checkNames (run w).transcript = declaredNames.take k)
    ∧ ((runBody w).2.2 = none → checkNames (run w).transcript = declaredNames) := by
  obtain ⟨ns, h1, h2, h3, h4, h5, h6⟩ := runBody_spec w
  have hcn : checkNames (run w).transcript = ns.map Prod.fst := by
    rw [checkNames_run w h, checkNames, h1]
  constructor
  · exact ⟨ns.length, by rw [hcn, h2]⟩
  · intro hnone
    rw [hcn]
    exact h4 hnone

/-- C8 witness at the all-passing world. -/
theorem C8_witness :
    (∃ k, checkNames (run wAll).transcript = declaredNames.take k)
    ∧ checkNames (run wAll).transcript = declaredNames := by
  have h := C8_thm wAll ⟨rfl, rfl, rfl⟩
  exact ⟨h.1, h.2 (by decide)⟩

/-- C9: every run that completes the whole `try:` body without an
exception records exactly 11 Checks (the declared names include one per
API endpoint of test 5), and the final summary line reports
"Total Tests: 11". -/
theorem C9_thm (w : World) (h : acquired w) (hn : (runBody w).2.2 = none) :
    (run w).results.total = 11
    ∧ checkNames (run w).transcript = declaredNames
    ∧ Line.text "Total Tests: 11" ∈ (run w).transcript := by
  have ht : (runBody w).1.total = 11 := runBody_total_of_none w hn
  refine ⟨by rw [run_results w h]; exact ht, ?_, ?_⟩
  · obtain ⟨ns, h1, _, _, h4, _, _⟩ := runBody_spec w
    rw [checkNames_run w h, checkNames, h1]
    exact h4 hn
  · have hm := mem_summary_total (runBody w).1
    rw [ht] at hm
    rw [show ("Total Tests: " ++ toString (11 : Nat)) = "Total Tests: 11" from by decide] at hm
    exact mem_transcript_of_summary w h _ hm

/-- C9 witness at the all-passing world. -/
theorem C9_witness :
    (run wAll).results.total = 11
    ∧ checkNames (run wAll).transcript = declaredNames
    ∧ Line.text "Total Tests: 11" ∈ (run wAll).transcript :=
  C9_thm wAll ⟨rfl, rfl, rfl⟩ (by decide)

/-- C10: determinism/idempotence.  Two runs whose worlds agree on every
oracle entry the script consults — the target's response for every
navigated URL, every screenshot write, every probed API endpoint, the
page-error events on the four swept pages, and the two build-artifact
paths — produce identical ordered lists of recorded Check names with
identical pass/fail outcomes, and the same exit code. -/
theorem C10_thm (w1 w2 : World)
    (hL : w1.launchOk = w2.launchOk) (hC : w1.newContextOk = w2.newContextOk)
    (hP : w1.newPageOk = w2.newPageOk)
    (hnav : ∀ u ∈ navUrls, w1.nav u = w2.nav u)
    (hshot : ∀ s ∈ shotPaths, w1.shot s = w2.shot s)
    (hapi : ∀ u ∈ apiUrls, w1.apiGet u = w2.apiGet u)
    (herr : ∀ u ∈ errorPages, w1.navErrors u = w2.navErrors u)
    (hfs : ∀ q ∈ buildPaths, w1.pathExists q = w2.pathExists q) :
    recordedOf (run w1).transcript = recordedOf (run w2).transcript
    ∧ (run w1).exitCode = (run w2).exitCode := by
  have n0 := hnav base (by simp [navUrls])
  have n1 := hnav (base ++ "/") (by simp [navUrls])
  have n2 := hnav (base ++ "/login") (by simp [navUrls])
  have n3 := hnav (base ++ "/dashboard") (by simp [navUrls])
  have n4 := hnav (base ++ "/onboarding") (by simp [navUrls])
  have n5 := hnav (base ++ "/dashboard/team") (by simp [navUrls])
  have n6 := hnav (base ++ "/dashboard/analytics") (by simp [navUrls])
  have n7 := hnav (base ++ "/dashboard/conversations") (by simp [navUrls])
  have n8 := hnav (base ++ "/dashboard/settings") (by simp [navUrls])
  have s1 := hshot "/tmp/homepage.png" (by simp [shotPaths])
  have s2 := hshot "/tmp/login.png" (by simp [shotPaths])
  have s3 := hshot "/tmp/dashboard-unauth.png" (by simp [shotPaths])
  have s4 := hshot "/tmp/onboarding.png" (by simp [shotPaths])
  have s5 := hshot "/tmp/team-page.png" (by simp [shotPaths])
  have s6 := hshot "/tmp/dashboard-full.png" (by simp [shotPaths])
  have a1 := hapi (base ++ "/api/auth/me") (by simp [apiUrls])
  have a2 := hapi (base ++ "/api/organizations") (by simp [apiUrls])
  have e1 := herr (base ++ "/") (by simp [errorPages])
  have e2 := herr (base ++ "/login") (by simp [errorPages])
  have e3 := herr (base ++ "/dashboard") (by simp [errorPages])
  have e4 := herr (base ++ "/onboarding") (by simp [errorPages])
  have b1 := hfs "/Users/jamesguy/Omniops/.next" (by simp [buildPaths])
  have b2 := hfs "/Users/jamesguy/Omniops/.next/BUILD_ID" (by simp [buildPaths])
  have hj := jsErrors_congr w1 w2 e1 e2 e3 e4
  have hscript : script w1 = script w2 := by
    simp only [script, eval1_congr w1 w2 n0 s1, eval2_congr w1 w2 n2 s2,
      eval3_congr w1 w2 n3 s3, eval4_congr w1 w2 n4 s4, eval5a_congr w1 w2 a1,
      eval5b_congr w1 w2 a2, eval6_congr w1 w2 n5 s5, eval7_congr w1 w2 n3 s6,
      eval8_congr w1 w2 n6 n7 n8, eval9_congr w1 w2 n1 n2 n3 n4 hj,
      say9_congr w1 w2 hj, eval10_congr w1 w2 b1 b2]
  have hrun : run w1 = run w2 := by
    simp only [run, runBody, hL, hC, hP, hscript]
  rw [hrun]
  exact ⟨rfl, rfl⟩

/-- C10 witness: `wAllJunk` differs from `wAll` only in page-error events
attached to a URL the script never visits; the recorded outcomes and exit
code coincide. -/
theorem C10_witness :
    recordedOf (run wAll).transcript = recordedOf (run wAllJunk).transcript
    ∧ (run wAll).exitCode = (run wAllJunk).exitCode :=
  C10_thm wAll wAllJunk rfl rfl rfl (fun _ _ => rfl) (fun _ _ => rfl) (fun _ _ => rfl)
    (fun u hu => by fin_cases hu <;> rfl) (fun _ _ => rfl)

end FlowChecker
